import Mathlib

/-!
Verification of the modbus_rpi_opta telemetry relay against its
natural-language specification.

The development shallowly embeds the Python sources:
* `system_v1/modbus_client_tls.py` — 32-bit timestamp split (`pack_u32_to_2x_u16`),
  register encoding (`u16`);
* `modbus_bridge_rpi2.py` — `TelemetryBuffer` (deque with drop-oldest),
  `StoringHoldingRegisterBlock.setValues`, the forwarder task's per-tick
  state machine, and timestamp reassembly;
* `system_v2/rpi1/smart_meter_server.py` — `SmartMeterDataBlock` (watched
  registers 0-7, counters, last_update);
* `system_v2/rpi2/modbus_server.py` — `GatewayDataBlock` (watched registers 0-4);
* `system_v2/rpi2/protocol_translator.py` — decode, `_validate_data`, and the
  `translate_and_send` cycle;
* `system_v2/rpi2/iec61850_client.py` — `write_float` error discipline;
* `system_v2/data_preparation/generate_esp32_data.py` — fixed-point encoding.

Machine integers are embedded as `Nat`/`Int` with explicit masking where the
source masks; physical quantities decoded from registers are `Rat`.  Python's
`round` (banker's rounding, ties to even) is embedded as `pyRound`.
-/

namespace ModbusRpiOpta

/-! ## 32-bit timestamp split and reassembly -/

/-- `u16` from `system_v1/modbus_client_tls.py` and
`generate_esp32_data.py`: clamp an integer to the range [0, 65535]. -/
def u16 (x : Int) : Int := max 0 (min 65535 x)

/-- `pack_u32_to_2x_u16` from `system_v1/modbus_client_tls.py` (lines 29-33):
clamp to 32 bits, then split into high and low 16-bit words. -/
def pack_u32_to_2x_u16 (u32 : Int) : Nat × Nat :=
  let v : Nat := (max 0 (min 0xFFFFFFFF u32)).toNat
  ((v >>> 16) &&& 0xFFFF, v &&& 0xFFFF)

/-- Timestamp reassembly as performed by
`StoringHoldingRegisterBlock.setValues` (`modbus_bridge_rpi2.py` line 151)
and `SmartMeterDataBlock.setValues` (`smart_meter_server.py` line 131):
`((hi & 0xFFFF) << 16) | (lo & 0xFFFF)`. -/
def reassemble_u32 (hi lo : Nat) : Nat :=
  ((hi &&& 0xFFFF) <<< 16) ||| (lo &&& 0xFFFF)

/-- Claim C8: splitting any 32-bit unsigned integer and reassembling the two
16-bit halves is the identity. -/
theorem pack_reassemble_roundtrip (x : Nat) (hx : x < 2 ^ 32) :
    reassemble_u32 (pack_u32_to_2x_u16 x).1 (pack_u32_to_2x_u16 x).2 = x := by
  have hclamp : (max 0 (min 0xFFFFFFFF (x : Int))).toNat = x := by
    have hxle : (x : Int) ≤ 0xFFFFFFFF := by
      have : (x : Int) < 2 ^ 32 := by exact_mod_cast hx
      omega
    rw [min_eq_right hxle, max_eq_right (Int.ofNat_nonneg x), Int.toNat_natCast]
  have hmask : (65535 : Nat) = 2 ^ 16 - 1 := by norm_num
  simp only [pack_u32_to_2x_u16, reassemble_u32, hclamp]
  rw [hmask, Nat.and_pow_two_sub_one_eq_mod, Nat.and_pow_two_sub_one_eq_mod,
    Nat.and_pow_two_sub_one_eq_mod, Nat.and_pow_two_sub_one_eq_mod,
    Nat.shiftRight_eq_div_pow, Nat.shiftLeft_eq, Nat.mul_comm,
    ← Nat.mul_add_lt_is_or (by omega : x % 2 ^ 16 % 2 ^ 16 < 2 ^ 16)]
  omega

/-- Witness for C8 at a concrete input: the spec's end-to-end test timestamp
1700000000 splits and reassembles to itself. -/
theorem pack_reassemble_roundtrip_witness :
    1700000000 < 2 ^ 32 ∧
      reassemble_u32 (pack_u32_to_2x_u16 1700000000).1
        (pack_u32_to_2x_u16 1700000000).2 = 1700000000 :=
  ⟨by norm_num, pack_reassemble_roundtrip 1700000000 (by norm_num)⟩

/-! ## Register block storage -/

/-- In-range Python slice assignment `self.values[start:start+len(values)] = values`
performed by the sequential data block when storing a write. -/
def listStore (regs : List Nat) (address : Nat) (vs : List Nat) : List Nat :=
  regs.take address ++ vs ++ regs.drop (address + vs.length)

/-- Register indexing: the Python code indexes the list of registers directly;
all call sites guarantee the index is in range, so the default is never read. -/
def reg (regs : List Nat) (i : Nat) : Nat := regs.getD i 0

/-- Modelled from the spec: the range-checked register store contract of the
pymodbus `ModbusSequentialDataBlock` superclass (an external dependency, not
under `src/`).  Spec §4.1/§7: `setValues(address, values)` stores the values
when the addressed range lies inside the block capacity and otherwise fails
with a RangeError surfaced to the caller, leaving the block unchanged. -/
def registerBlock_setValues (regs : List Nat) (address : Nat) (vs : List Nat) :
    Except Unit Unit × List Nat :=
  if address + vs.length ≤ regs.length then (.ok (), listStore regs address vs)
  else (.error (), regs)

/-- Modelled from the spec: the range-checked read contract of the pymodbus
`ModbusSequentialDataBlock` superclass.  Spec §4.1: `getValues(address, count)`
returns a copy of the requested slice, failing with a RangeError when the
range is outside capacity. -/
def registerBlock_getValues (regs : List Nat) (address count : Nat) :
    Except Unit (List Nat) :=
  if address + count ≤ regs.length then .ok ((regs.drop address).take count)
  else .error ()

/-- Claim C7: a `setValues` or `getValues` call addressing a range outside the
block capacity fails with a RangeError surfaced to the caller and leaves the
register contents unchanged (no silent truncation or partial write). -/
theorem out_of_range_rejected (regs : List Nat) (hlen : regs.length = 100)
    (address : Nat) (vs : List Nat) (count : Nat)
    (hset : 100 < address + vs.length) (hget : 100 < address + count) :
    registerBlock_setValues regs address vs = (.error (), regs) ∧
      registerBlock_getValues regs address count = .error () := by
  constructor
  · unfold registerBlock_setValues
    rw [if_neg (by omega)]
  · unfold registerBlock_getValues
    rw [if_neg (by omega)]

/-- Witness for C7: a 3-register write at address 98 of a fresh 100-register
block, and a 5-register read at address 98, are both rejected unchanged. -/
theorem out_of_range_rejected_witness :
    (List.replicate 100 0).length = 100 ∧ 100 < 98 + 3 ∧ 100 < 98 + 5 ∧
      registerBlock_setValues (List.replicate 100 0) 98 [1, 2, 3] =
        (.error (), List.replicate 100 0) ∧
      registerBlock_getValues (List.replicate 100 0) 98 5 = .error () := by
  have h := out_of_range_rejected (List.replicate 100 0) (by simp) 98 [1, 2, 3] 5
    (by norm_num) (by norm_num)
  exact ⟨by simp, by norm_num, by norm_num, h.1, h.2⟩

/-! ## Register decoding (spec §4.3) -/

/-- The eight decoded telemetry fields produced by
`SmartMeterDataBlock.setValues` (`smart_meter_server.py` lines 123-132) and
`StoringHoldingRegisterBlock.setValues` (`modbus_bridge_rpi2.py` lines 143-151). -/
structure Decoded8 where
  P_ac : Rat
  P_dc : Rat
  V_dc : Rat
  I_dc : Rat
  G : Rat
  T_cell : Rat
  unix_s : Nat
deriving Repr, DecidableEq

/-- Decode of the full 8-register watched range, transcribed from
`smart_meter_server.py` lines 123-131 (identical in `modbus_bridge_rpi2.py`
lines 143-151). -/
def decode8 (regs : List Nat) : Decoded8 :=
  { P_ac := (reg regs 0 : Rat) * 1
    P_dc := (reg regs 1 : Rat) * 1
    V_dc := (reg regs 2 : Rat) / 10
    I_dc := (reg regs 3 : Rat) / 100
    G := (reg regs 4 : Rat) * 1
    T_cell := (reg regs 5 : Rat) / 10
    unix_s := ((reg regs 6 &&& 0xFFFF) <<< 16) ||| (reg regs 7 &&& 0xFFFF) }

/-- The five decoded fields of the substation tier, as produced by
`GatewayDataBlock.setValues` (`modbus_server.py` lines 56-60) and by
`ProtocolTranslator.translate_and_send` (`protocol_translator.py` lines 83-87). -/
structure Decoded5 where
  P_ac : Rat
  V_dc : Rat
  I_dc : Rat
  G : Rat
  timestamp_low : Nat
deriving Repr, DecidableEq

/-- Decode of the 5-register watched range, transcribed from
`modbus_server.py` lines 56-60: index 1 is scaled by 1/10 (V_dc), index 2 by
1/100 (I_dc), index 3 unscaled (G), index 4 a partial timestamp. -/
def decode5 (regs : List Nat) : Decoded5 :=
  { P_ac := (reg regs 0 : Rat) * 1
    V_dc := (reg regs 1 : Rat) / 10
    I_dc := (reg regs 2 : Rat) / 100
    G := (reg regs 3 : Rat) * 1
    timestamp_low := reg regs 4 }

/-- The first four fields of the spec §4.3 8-register table evaluated on a
register vector: index 0 = P_ac (no scale), index 1 = P_dc (no scale),
index 2 = V_dc as value/10, index 3 = I_dc as value/100.  This follows the
spec's words for comparison with the source's 5-register decode. -/
def decode8_lowFour (regs : List Nat) : Rat × Rat × Rat × Rat :=
  ((decode8 regs).P_ac, (decode8 regs).P_dc, (decode8 regs).V_dc, (decode8 regs).I_dc)

/-- The values the 5-register tier actually assigns to indices 0-3,
as a tuple in index order, read off `decode5`. -/
def decode5_lowFour (regs : List Nat) : Rat × Rat × Rat × Rat :=
  ((decode5 regs).P_ac, (decode5 regs).V_dc, (decode5 regs).I_dc, (decode5 regs).G)

/-- Counterexample to claim C6: on the spec's own §8 gateway test vector
`[800, 205, 120, 600, 999]`, the 5-register decode of indices 0-3 differs from
the 8-register decode restricted to indices 0-3 (the code decodes index 1 as
V_dc = 20.5, not as P_dc = 205). -/
theorem decode5_ne_decode8_restriction :
    decode5_lowFour [800, 205, 120, 600, 999] ≠
      decode8_lowFour [800, 205, 120, 600, 999] := by
  norm_num [decode5_lowFour, decode8_lowFour, decode5, decode8, reg]

/-- Claim C6 (amended): the 5-register substation tier does not reuse the
8-register table's indices 0-3 verbatim; it drops P_dc and shifts the tail
down by one: index 0 = P_ac (no scale), index 1 = V_dc as value/10,
index 2 = I_dc as value/100, index 3 = G (no scale).  Equivalently, the
5-register decode of `[r0, r1, r2, r3, r4]` agrees on P_ac, V_dc, I_dc and G
with the 8-register decode of `[r0, x, r1, r2, r3, t1, t2, t3]` for every
interposed P_dc register x. -/
theorem decode5_eq_decode8_shifted (r0 r1 r2 r3 r4 x t1 t2 t3 : Nat) :
    (decode5 [r0, r1, r2, r3, r4]).P_ac = (decode8 [r0, x, r1, r2, r3, t1, t2, t3]).P_ac ∧
    (decode5 [r0, r1, r2, r3, r4]).V_dc = (decode8 [r0, x, r1, r2, r3, t1, t2, t3]).V_dc ∧
    (decode5 [r0, r1, r2, r3, r4]).I_dc = (decode8 [r0, x, r1, r2, r3, t1, t2, t3]).I_dc ∧
    (decode5 [r0, r1, r2, r3, r4]).G = (decode8 [r0, x, r1, r2, r3, t1, t2, t3]).G := by
  refine ⟨rfl, rfl, rfl, rfl⟩

/-- Witness for C6 (amended) on the spec's §8 gateway vector: the 5-register
decode agrees with the 8-register decode of the vector with a P_dc register
interposed. -/
theorem decode5_eq_decode8_shifted_witness :
    (decode5 [800, 205, 120, 600, 999]).P_ac =
        (decode8 [800, 777, 205, 120, 600, 0, 0, 0]).P_ac ∧
      (decode5 [800, 205, 120, 600, 999]).V_dc =
        (decode8 [800, 777, 205, 120, 600, 0, 0, 0]).V_dc ∧
      (decode5 [800, 205, 120, 600, 999]).I_dc =
        (decode8 [800, 777, 205, 120, 600, 0, 0, 0]).I_dc ∧
      (decode5 [800, 205, 120, 600, 999]).G =
        (decode8 [800, 777, 205, 120, 600, 0, 0, 0]).G :=
  decode5_eq_decode8_shifted 800 205 120 600 999 777 0 0 0

/-! ## TelemetryBuffer (`modbus_bridge_rpi2.py` lines 58-116) -/

/-- A buffered telemetry record: the dict appended in `TelemetryBuffer.add`
(lines 82-86), with both datetimes embedded as `Nat` instants. -/
structure TelemetryRecord where
  registers : List Nat
  timestamp : Nat
  received_at : Nat
deriving Repr, DecidableEq

/-- Observable state of `TelemetryBuffer` (lines 63-68): the deque contents
(oldest first), its `maxlen`, and the three lifetime counters. -/
@[ext]
structure BufferState where
  buffer : List TelemetryRecord
  maxlen : Nat
  total_received : Nat
  total_forwarded : Nat
  total_dropped : Nat
deriving Repr, DecidableEq

/-- `TelemetryBuffer.add` (lines 70-93): when the deque is already at
`maxlen`, count one drop; then append, with the deque's bounded semantics
discarding from the left whatever exceeds `maxlen`; finally count the
reception.  The call never rejects the record. -/
def TelemetryBuffer_add (s : BufferState) (registers : List Nat)
    (timestamp now : Nat) : BufferState :=
  let dropped := if s.maxlen ≤ s.buffer.length then s.total_dropped + 1
    else s.total_dropped
  let appended := s.buffer ++
    [{ registers := registers, timestamp := timestamp, received_at := now }]
  let buffer := if s.maxlen < appended.length then
    appended.drop (appended.length - s.maxlen) else appended
  { s with
    buffer := buffer
    total_dropped := dropped
    total_received := s.total_received + 1 }

/-- `TelemetryBuffer.get_latest` (lines 95-100): peek the rightmost record. -/
def TelemetryBuffer_get_latest (s : BufferState) : Option TelemetryRecord :=
  s.buffer.getLast?

/-- `TelemetryBuffer.get_count` (lines 109-112). -/
def TelemetryBuffer_get_count (s : BufferState) : Nat := s.buffer.length

/-- `TelemetryBuffer.mark_forwarded` (lines 114-116). -/
def TelemetryBuffer_mark_forwarded (s : BufferState) (count : Nat) : BufferState :=
  { s with total_forwarded := s.total_forwarded + count }

/-- A fresh buffer of capacity `N`, as constructed in `__init__`. -/
def emptyBuffer (N : Nat) : BufferState :=
  { buffer := [], maxlen := N, total_received := 0, total_forwarded := 0,
    total_dropped := 0 }

/-- Inputs of one `add` call: registers, decoded timestamp, arrival instant. -/
def mkRecord (r : List Nat × Nat × Nat) : TelemetryRecord :=
  { registers := r.1, timestamp := r.2.1, received_at := r.2.2 }

/-- Sequence of `add` calls, in order. -/
def addAll (s : BufferState) (rs : List (List Nat × Nat × Nat)) : BufferState :=
  rs.foldl (fun s r => TelemetryBuffer_add s r.1 r.2.1 r.2.2) s

/-- Closed form for the buffer state reached from empty after the `add` calls
listed in `rs`, against which `addAll` is proved. -/
def bufferAfter (N : Nat) (rs : List (List Nat × Nat × Nat)) : BufferState :=
  { buffer := (rs.map mkRecord).drop (rs.length - N)
    maxlen := N
    total_received := rs.length
    total_forwarded := 0
    total_dropped := rs.length - min rs.length N }

theorem TelemetryBuffer_add_bufferAfter (N : Nat)
    (rs : List (List Nat × Nat × Nat)) (r : List Nat × Nat × Nat) :
    TelemetryBuffer_add (bufferAfter N rs) r.1 r.2.1 r.2.2 =
      bufferAfter N (rs ++ [r]) := by
  ext1
  case buffer =>
    simp only [TelemetryBuffer_add, bufferAfter, mkRecord, List.map_append,
      List.map_cons, List.map_nil, List.length_append, List.length_map,
      List.length_cons, List.length_nil, List.length_drop]
    rcases le_or_lt N rs.length with hN | hN
    · rw [if_pos (by omega),
        ← List.drop_append_of_le_length
          (show rs.length - N ≤ (List.map mkRecord rs).length by simp),
        List.drop_drop]
      congr 1
      omega
    · rw [if_neg (by omega), show rs.length - N = 0 by omega,
        show rs.length + (0 + 1) - N = 0 by omega, List.drop_zero, List.drop_zero]
  case maxlen => rfl
  case total_received => simp [TelemetryBuffer_add, bufferAfter]
  case total_forwarded => rfl
  case total_dropped =>
    simp only [TelemetryBuffer_add, bufferAfter, List.length_drop, List.length_map]
    rcases le_or_lt N rs.length with hN | hN
    · rw [if_pos (by omega)]
      simp
      omega
    · rw [if_neg (by omega)]
      simp
      omega

theorem addAll_bufferAfter (N : Nat) (rs pre : List (List Nat × Nat × Nat)) :
    addAll (bufferAfter N pre) rs = bufferAfter N (pre ++ rs) := by
  induction rs generalizing pre with
  | nil => simp [addAll]
  | cons r rs ih =>
    show addAll (TelemetryBuffer_add (bufferAfter N pre) r.1 r.2.1 r.2.2) rs = _
    rw [TelemetryBuffer_add_bufferAfter, ih]
    simp

/-- Claim C2: from an empty buffer of capacity `N ≥ 1`, performing `N + k`
`add` calls (none of which is rejected — every call bumps `total_received`)
leaves exactly `min N (N + k)` records, namely the `N` most recently added
ones in FIFO order, with `total_received = N + k` and
`total_dropped = max 0 k`. -/
theorem buffer_drop_oldest (N k : Nat) (_hN : 1 ≤ N)
    (rs : List (List Nat × Nat × Nat)) (hlen : rs.length = N + k) :
    (addAll (emptyBuffer N) rs).buffer.length = min N (N + k) ∧
      (addAll (emptyBuffer N) rs).buffer = (rs.map mkRecord).drop k ∧
      (addAll (emptyBuffer N) rs).total_received = N + k ∧
      (addAll (emptyBuffer N) rs).total_dropped = max 0 k := by
  have hempty : emptyBuffer N = bufferAfter N [] := by
    simp [emptyBuffer, bufferAfter]
  rw [hempty, addAll_bufferAfter, List.nil_append]
  unfold bufferAfter
  refine ⟨?_, ?_, ?_, ?_⟩
  · simp [hlen]
  · simp [hlen]
  · simp [hlen]
  · simp [hlen]

/-- Witness for C2 with `N = 2`, `k = 1`: three adds leave the last two
records, `total_received = 3`, `total_dropped = 1`. -/
theorem buffer_drop_oldest_witness :
    1 ≤ 2 ∧ ([([1], 10, 11), ([2], 20, 21), ([3], 30, 31)] :
        List (List Nat × Nat × Nat)).length = 2 + 1 ∧
      (addAll (emptyBuffer 2) [([1], 10, 11), ([2], 20, 21), ([3], 30, 31)]).buffer.length =
          min 2 (2 + 1) ∧
      (addAll (emptyBuffer 2) [([1], 10, 11), ([2], 20, 21), ([3], 30, 31)]).buffer =
          ([([1], 10, 11), ([2], 20, 21), ([3], 30, 31)].map mkRecord).drop 1 ∧
      (addAll (emptyBuffer 2) [([1], 10, 11), ([2], 20, 21), ([3], 30, 31)]).total_received =
          2 + 1 ∧
      (addAll (emptyBuffer 2) [([1], 10, 11), ([2], 20, 21), ([3], 30, 31)]).total_dropped =
          max 0 1 := by
  have h := buffer_drop_oldest 2 1 (by decide)
    [([1], 10, 11), ([2], 20, 21), ([3], 30, 31)] (by decide)
  exact ⟨by decide, by decide, h.1, h.2.1, h.2.2.1, h.2.2.2⟩

/-! ## SmartMeterDataBlock (`system_v2/rpi1/smart_meter_server.py`) -/

/-- Observable state of `SmartMeterDataBlock`: registers plus the statistics
fields initialised in `__init__` (lines 96-100).  The wall clock instant of a
call is passed in explicitly as `now`. -/
structure SmartMeterState where
  registers : List Nat
  total_received : Nat
  total_served : Nat
  last_update : Option Nat
deriving Repr, DecidableEq

/-- `SmartMeterDataBlock.getValues` (lines 143-159): return the requested
slice; when the request is exactly the watched range (address 0, count 8),
increment `total_served`. -/
def smartMeter_getValues (s : SmartMeterState) (address count : Nat) :
    SmartMeterState × List Nat :=
  let values := (s.registers.drop address).take count
  if address = 0 ∧ count = 8 then
    ({ s with total_served := s.total_served + 1 }, values)
  else (s, values)

/-- `SmartMeterDataBlock.setValues` (lines 102-141): store the values, return
early if the written interval misses registers 0-7, otherwise re-read the full
8-register watched range through `getValues`, decode it, increment
`total_received` and set `last_update`.  The decoded record (computed for
logging) is returned as the observable side effect; the early-return branch
returns `none`. -/
def smartMeter_setValues (s : SmartMeterState) (address : Nat) (vs : List Nat)
    (now : Nat) : SmartMeterState × Option Decoded8 :=
  let s1 := { s with registers := listStore s.registers address vs }
  if (address : Int) + vs.length - 1 < 0 ∨ (address : Int) > 7 then (s1, none)
  else
    let rd := smartMeter_getValues s1 0 8
    let d := decode8 rd.2
    ({ rd.1 with total_received := rd.1.total_received + 1, last_update := some now },
      some d)

/-! ## GatewayDataBlock (`system_v2/rpi2/modbus_server.py`) -/

/-- Observable state of `GatewayDataBlock`: registers plus the statistics
fields initialised in `__init__` (lines 30-34). -/
structure GatewayState where
  registers : List Nat
  total_received : Nat
  last_update : Option Nat
deriving Repr, DecidableEq

/-- `GatewayDataBlock.setValues` (lines 36-72): store the values, return early
if the written interval misses registers 0-4, otherwise re-read the full
5-register watched range, decode it, increment `total_received`, set
`last_update` and trigger the update callback.  The decoded record is returned
as the observable side effect; the early-return branch returns `none`. -/
def gateway_setValues (g : GatewayState) (address : Nat) (vs : List Nat)
    (now : Nat) : GatewayState × Option Decoded5 :=
  let g1 := { g with registers := listStore g.registers address vs }
  if (address : Int) + vs.length - 1 < 0 ∨ (address : Int) > 4 then (g1, none)
  else
    let regs := (g1.registers.drop 0).take 5
    ({ g1 with total_received := g1.total_received + 1, last_update := some now },
      some (decode5 regs))

/-! ## StoringHoldingRegisterBlock (`modbus_bridge_rpi2.py` lines 122-162) -/

/-- `StoringHoldingRegisterBlock.setValues`: store the values, return early if
the written interval misses registers 0-7, otherwise re-read the 8-register
block, reconstruct the timestamp and hand the snapshot to
`telemetry_buffer.add`.  The emitted `(registers, timestamp)` pair is returned
as the observable side effect; the early-return branch returns `none`. -/
def storingBlock_setValues (regs : List Nat) (address : Nat) (vs : List Nat) :
    List Nat × Option (List Nat × Nat) :=
  let regs1 := listStore regs address vs
  if (address : Int) + vs.length - 1 < 0 ∨ (address : Int) > 7 then (regs1, none)
  else
    let snapshot := (regs1.drop 0).take 8
    (regs1, some (snapshot, (decode8 snapshot).unix_s))

/-- Claim C1: a non-empty in-capacity write stores the registers; when the
written interval overlaps the watched range (0-7 on the bridge-tier blocks,
0-4 on the substation tier) the whole watched range is re-read and decoded,
`total_received` goes up by exactly one and `last_update` becomes the current
instant (on the bridge's buffer-backed block, the emitted record is handed to
`TelemetryBuffer_add`, which bumps the buffer's `total_received` by one and
stamps the record with the current instant); a write entirely outside the
watched range stores the registers and leaves every other observable field
unchanged. -/
theorem watched_write_side_effects (address : Nat) (vs : List Nat)
    (hne : vs ≠ []) (s : SmartMeterState) (g : GatewayState) (br : List Nat)
    (now : Nat) :
    (((smartMeter_setValues s address vs now).1.registers =
        listStore s.registers address vs) ∧
      (address ≤ 7 →
        (smartMeter_setValues s address vs now).1.total_received =
            s.total_received + 1 ∧
          (smartMeter_setValues s address vs now).1.last_update = some now ∧
          (smartMeter_setValues s address vs now).2 =
            some (decode8 ((listStore s.registers address vs).take 8))) ∧
      (7 < address →
        (smartMeter_setValues s address vs now).1 =
            { s with registers := listStore s.registers address vs } ∧
          (smartMeter_setValues s address vs now).2 = none)) ∧
    (((gateway_setValues g address vs now).1.registers =
        listStore g.registers address vs) ∧
      (address ≤ 4 →
        (gateway_setValues g address vs now).1.total_received =
            g.total_received + 1 ∧
          (gateway_setValues g address vs now).1.last_update = some now ∧
          (gateway_setValues g address vs now).2 =
            some (decode5 ((listStore g.registers address vs).take 5))) ∧
      (4 < address →
        (gateway_setValues g address vs now).1 =
            { g with registers := listStore g.registers address vs } ∧
          (gateway_setValues g address vs now).2 = none)) ∧
    (((storingBlock_setValues br address vs).1 = listStore br address vs) ∧
      (address ≤ 7 →
        (storingBlock_setValues br address vs).2 =
            some ((listStore br address vs).take 8,
              (decode8 ((listStore br address vs).take 8)).unix_s) ∧
          ∀ buf : BufferState, ∀ snapshot : List Nat, ∀ ts : Nat,
            1 ≤ buf.maxlen →
              (TelemetryBuffer_add buf snapshot ts now).total_received =
                  buf.total_received + 1 ∧
                (TelemetryBuffer_add buf snapshot ts now).buffer.getLast? =
                  some ⟨snapshot, ts, now⟩) ∧
      (7 < address → (storingBlock_setValues br address vs).2 = none)) := by
  have hlen : 0 < vs.length := List.length_pos.mpr hne
  refine ⟨?_, ?_, ?_⟩
  · unfold smartMeter_setValues
    constructor
    · split
      · rfl
      · simp [smartMeter_getValues]
    · constructor
      · intro h7
        rw [if_neg (by omega)]
        refine ⟨rfl, rfl, ?_⟩
        simp [smartMeter_getValues]
      · intro h7
        rw [if_pos (by omega)]
        exact ⟨rfl, rfl⟩
  · unfold gateway_setValues
    constructor
    · split
      · rfl
      · rfl
    · constructor
      · intro h4
        rw [if_neg (by omega)]
        exact ⟨rfl, rfl, by simp⟩
      · intro h4
        rw [if_pos (by omega)]
        exact ⟨rfl, rfl⟩
  · unfold storingBlock_setValues
    constructor
    · split
      · rfl
      · rfl
    · constructor
      · intro h7
        rw [if_neg (by omega)]
        refine ⟨by simp, ?_⟩
        intro buf snapshot ts hmax
        refine ⟨rfl, ?_⟩
        simp only [TelemetryBuffer_add]
        split
        · rw [List.drop_append_of_le_length (by simp; omega),
            List.getLast?_append_cons]
          rfl
        · rw [List.getLast?_append_cons]
          rfl
      · intro h7
        rw [if_pos (by omega)]

/-- Witness for C1: the spec's §8 end-to-end vector written at address 0 of a
fresh block bumps `total_received` to 1 and stamps `last_update` on both
tiers, and the bridge buffer records it with `received_at` = the instant. -/
theorem watched_write_side_effects_witness :
    ([1200, 1150, 240, 500, 850, 300, 25939, 61696] : List Nat) ≠ [] ∧
      (smartMeter_setValues ⟨List.replicate 100 0, 0, 0, none⟩ 0
          [1200, 1150, 240, 500, 850, 300, 25939, 61696] 99).1.total_received = 1 ∧
      (smartMeter_setValues ⟨List.replicate 100 0, 0, 0, none⟩ 0
          [1200, 1150, 240, 500, 850, 300, 25939, 61696] 99).1.last_update =
        some 99 ∧
      (gateway_setValues ⟨List.replicate 100 0, 0, none⟩ 0
          [1200, 1150, 240, 500, 850, 300, 25939, 61696] 99).1.total_received = 1 ∧
      (TelemetryBuffer_add (emptyBuffer 100)
          ((listStore (List.replicate 100 0) 0
            [1200, 1150, 240, 500, 850, 300, 25939, 61696]).take 8)
          1700000000 99).total_received = 1 := by
  have h := watched_write_side_effects 0
    [1200, 1150, 240, 500, 850, 300, 25939, 61696] (by decide)
    ⟨List.replicate 100 0, 0, 0, none⟩ ⟨List.replicate 100 0, 0, none⟩
    (List.replicate 100 0) 99
  refine ⟨by decide, (h.1.2.1 (by decide)).1, (h.1.2.1 (by decide)).2.1,
    (h.2.1.2.1 (by decide)).1, ?_⟩
  exact ((h.2.2.2.1 (by decide)).2 (emptyBuffer 100)
    ((listStore (List.replicate 100 0) 0
      [1200, 1150, 240, 500, 850, 300, 25939, 61696]).take 8)
    1700000000 (by decide)).1

/-! ## Forwarder task (`modbus_bridge_rpi2.py` lines 180-286)

One iteration of the `while True` loop is embedded as a function of the
mutable state the loop carries (`connected`, `consecutive_failures`, plus the
buffer's `total_forwarded` counter) and of that tick's environment: the
buffer count observed, whether `client.connect()` succeeds, what
`get_latest()` returns, and how `client.write_registers` ends. -/

/-- Outcome of the downstream `write_registers` call: a normal reply,
a protocol-level Modbus error reply (`result.isError()`), or a raised
exception (transport error). -/
inductive SendOutcome where
  | success : SendOutcome
  | modbusError : SendOutcome
  | exception : SendOutcome
deriving Repr, DecidableEq

/-- The forwarder loop's mutable state (lines 195-196 and the buffer's
forwarded counter). -/
structure FwdState where
  connected : Bool
  consecutive_failures : Nat
  total_forwarded : Nat
deriving Repr, DecidableEq

/-- One tick's environment. -/
structure TickInput where
  bufferCount : Nat
  connectOk : Bool
  latest : Option TelemetryRecord
  send : SendOutcome
deriving Repr, DecidableEq

/-- One iteration of `forwarder_task` (lines 198-274).  An empty buffer skips
the cycle; a failed connect attempt increments the failure counter and
`continue`s — skipping the threshold check at lines 268-274; a successful
connect resets the counter; then the latest record is fetched and sent:
success resets the counter and counts the forward, a Modbus error reply only
increments the counter, an exception increments the counter and drops
`connected`; finally (send path only) reaching 3 failures forces
`connected = False` and resets the counter to 0. -/
def forwarderTick (s : FwdState) (inp : TickInput) : FwdState :=
  if inp.bufferCount = 0 then s
  else if s.connected = false ∧ inp.connectOk = false then
    { s with consecutive_failures := s.consecutive_failures + 1 }
  else
    let s1 := if s.connected then s
      else { s with connected := true, consecutive_failures := 0 }
    match inp.latest with
    | none => s1
    | some _ =>
      let s2 :=
        match inp.send with
        | .success =>
          { s1 with
            total_forwarded := s1.total_forwarded + 1
            consecutive_failures := 0 }
        | .modbusError =>
          { s1 with consecutive_failures := s1.consecutive_failures + 1 }
        | .exception =>
          { s1 with
            consecutive_failures := s1.consecutive_failures + 1
            connected := false }
      if 3 ≤ s2.consecutive_failures then
        { s2 with connected := false, consecutive_failures := 0 }
      else s2

/-- States reachable by the forwarder loop from its initial state
(`connected = False`, `consecutive_failures = 0`, line 195-196). -/
inductive ForwarderReach : FwdState → Prop where
  | init : ForwarderReach ⟨false, 0, 0⟩
  | step {s : FwdState} (inp : TickInput) :
      ForwarderReach s → ForwarderReach (forwarderTick s inp)

/-- Counterexample to claim C4 as stated: three consecutive connect failures
from the initial state leave a reachable state whose tick ended with
`consecutive_failures = 3`, not reset to 0 — the connect-failure path
`continue`s past the threshold check, so a tick can end with the counter at
the threshold. -/
theorem forwarder_threshold_counterexample :
    ForwarderReach
        (forwarderTick (forwarderTick (forwarderTick ⟨false, 0, 0⟩
          ⟨1, false, none, .success⟩) ⟨1, false, none, .success⟩)
          ⟨1, false, none, .success⟩) ∧
      (forwarderTick (forwarderTick (forwarderTick ⟨false, 0, 0⟩
          ⟨1, false, none, .success⟩) ⟨1, false, none, .success⟩)
          ⟨1, false, none, .success⟩).consecutive_failures = 3 := by
  refine ⟨?_, by decide⟩
  exact ForwarderReach.step _ (ForwarderReach.step _
    (ForwarderReach.step _ ForwarderReach.init))

/-- Helper: one tick preserves the invariant that a failure count at or above
the threshold only occurs while disconnected. -/
theorem forwarderTick_preserves_inv (s : FwdState) (inp : TickInput)
    (ih : 3 ≤ s.consecutive_failures → s.connected = false) :
    3 ≤ (forwarderTick s inp).consecutive_failures →
      (forwarderTick s inp).connected = false := by
  obtain ⟨c, cf, tf⟩ := s
  obtain ⟨bc, co, lat, snd⟩ := inp
  by_cases hbc : bc = 0 <;>
    cases c <;> cases co <;> rcases lat with _ | r <;> cases snd <;>
      simp_all [forwarderTick] <;> split_ifs <;> simp_all

/-- Claim C4 (amended): the threshold check runs only on the send path — a
tick that reaches the send and fails while the counter stands at 2 ends with
`connected = false` and the counter reset to 0; connect-failure ticks skip
the check, so the counter can end a tick at 3 or more, but only while
disconnected: in every reachable state `consecutive_failures ≥ 3` implies
`connected = false`, so the next tick with a non-empty buffer begins with a
fresh connect attempt. -/
theorem forwarder_threshold (s : FwdState) (hs : ForwarderReach s) :
    (3 ≤ s.consecutive_failures → s.connected = false) ∧
      (∀ (inp : TickInput) (r : TelemetryRecord),
        inp.bufferCount ≠ 0 → s.connected = true → inp.latest = some r →
        inp.send ≠ .success → s.consecutive_failures = 2 →
        (forwarderTick s inp).connected = false ∧
          (forwarderTick s inp).consecutive_failures = 0) := by
  constructor
  · induction hs with
    | init => intro _; rfl
    | @step s inp hs ih => exact forwarderTick_preserves_inv s inp ih
  · intro inp r hbuf hconn hlat hsend hcf
    unfold forwarderTick
    rw [if_neg hbuf, if_neg (by simp [hconn]), if_pos hconn, hlat]
    rcases hsendo : inp.send with _ | _ | _
    · exact absurd hsendo hsend
    · simp [hcf]
    · simp [hcf]

/-- Witness for C4 (amended) at concrete inputs: a Modbus-error send with the
counter at 2 ends disconnected with the counter reset; the reachable state
after three connect failures carries `consecutive_failures = 3` and is indeed
disconnected. -/
theorem forwarder_threshold_witness :
    ((forwarderTick ⟨true, 2, 0⟩
        ⟨1, true, some ⟨[], 0, 0⟩, .modbusError⟩).connected = false ∧
      (forwarderTick ⟨true, 2, 0⟩
        ⟨1, true, some ⟨[], 0, 0⟩, .modbusError⟩).consecutive_failures = 0) ∧
      (forwarderTick (forwarderTick (forwarderTick ⟨false, 0, 0⟩
          ⟨1, false, none, .success⟩) ⟨1, false, none, .success⟩)
          ⟨1, false, none, .success⟩).connected = false := by
  constructor
  · have hreach : ForwarderReach ⟨true, 2, 0⟩ := by
      have h2 : forwarderTick (forwarderTick ⟨false, 0, 0⟩
          ⟨1, true, some ⟨[], 0, 0⟩, .modbusError⟩)
          ⟨1, true, some ⟨[], 0, 0⟩, .modbusError⟩ = ⟨true, 2, 0⟩ := by decide
      exact h2 ▸ ForwarderReach.step _ (ForwarderReach.step _ ForwarderReach.init)
    exact (forwarder_threshold ⟨true, 2, 0⟩ hreach).2
      ⟨1, true, some ⟨[], 0, 0⟩, .modbusError⟩ ⟨[], 0, 0⟩
      (by decide) rfl rfl (by decide) rfl
  · exact (forwarder_threshold _
      (ForwarderReach.step _ (ForwarderReach.step _
        (ForwarderReach.step _ ForwarderReach.init)))).1 (by decide)

/-- Counterexample to claim C5 as stated: a Connected tick whose send ends in
a protocol-level Modbus error reply with the counter at 0 increments the
counter but ends with `connected = true` — only the exception path drops the
connection below the threshold. -/
theorem send_failure_counterexample :
    (forwarderTick ⟨true, 0, 0⟩
        ⟨1, true, some ⟨[], 0, 0⟩, .modbusError⟩).connected = true ∧
      (forwarderTick ⟨true, 0, 0⟩
        ⟨1, true, some ⟨[], 0, 0⟩, .modbusError⟩).consecutive_failures = 1 := by
  exact ⟨by decide, by decide⟩

/-- Claim C5 (amended): every send failure on a Connected tick increments
`consecutive_failures` by one; a transport error (exception) always ends the
tick with `connected = false`, but a protocol-level Modbus error reply keeps
the connection marked up unless the incremented counter reaches the threshold
of 3, in which case the tick ends disconnected with the counter reset to 0. -/
theorem send_failure_behavior (s : FwdState) (inp : TickInput)
    (r : TelemetryRecord) (hbuf : inp.bufferCount ≠ 0)
    (hconn : s.connected = true) (hlat : inp.latest = some r) :
    (inp.send = .exception →
      (forwarderTick s inp).connected = false ∧
        (forwarderTick s inp).consecutive_failures =
          (if 3 ≤ s.consecutive_failures + 1 then 0
            else s.consecutive_failures + 1)) ∧
    (inp.send = .modbusError →
      (forwarderTick s inp).connected =
          (if 3 ≤ s.consecutive_failures + 1 then false else true) ∧
        (forwarderTick s inp).consecutive_failures =
          (if 3 ≤ s.consecutive_failures + 1 then 0
            else s.consecutive_failures + 1)) := by
  obtain ⟨c, cf, tf⟩ := s
  obtain ⟨bc, co, lat, snd⟩ := inp
  simp only at hconn hlat
  subst hconn
  subst hlat
  constructor <;> intro hsend <;> subst hsend <;>
    by_cases h3 : 3 ≤ cf + 1 <;>
      simp [forwarderTick, hbuf, h3]

/-- Witness for C5 (amended) at a concrete Connected state with the counter
at 0: an exception ends the tick disconnected with the counter at 1, while a
Modbus error reply ends it still connected with the counter at 1. -/
theorem send_failure_behavior_witness :
    ((forwarderTick ⟨true, 0, 0⟩
        ⟨1, true, some ⟨[], 0, 0⟩, .exception⟩).connected = false ∧
      (forwarderTick ⟨true, 0, 0⟩
          ⟨1, true, some ⟨[], 0, 0⟩, .exception⟩).consecutive_failures =
        (if 3 ≤ 0 + 1 then 0 else 0 + 1)) ∧
      ((forwarderTick ⟨true, 0, 0⟩
          ⟨1, true, some ⟨[], 0, 0⟩, .modbusError⟩).connected =
        (if 3 ≤ 0 + 1 then false else true) ∧
        (forwarderTick ⟨true, 0, 0⟩
            ⟨1, true, some ⟨[], 0, 0⟩, .modbusError⟩).consecutive_failures =
          (if 3 ≤ 0 + 1 then 0 else 0 + 1)) := by
  constructor
  · exact (send_failure_behavior ⟨true, 0, 0⟩
      ⟨1, true, some ⟨[], 0, 0⟩, .exception⟩ ⟨[], 0, 0⟩
      (by decide) rfl rfl).1 rfl
  · exact (send_failure_behavior ⟨true, 0, 0⟩
      ⟨1, true, some ⟨[], 0, 0⟩, .modbusError⟩ ⟨[], 0, 0⟩
      (by decide) rfl rfl).2 rfl

/-! ## ProtocolTranslator (`system_v2/rpi2/protocol_translator.py`) -/

/-- The translator's statistics fields initialised in `__init__`
(lines 30-32). -/
structure TranslatorState where
  total_updates : Nat
  total_errors : Nat
  last_update : Option Nat
deriving Repr, DecidableEq

/-- `ProtocolTranslator._validate_data` (lines 134-164): each field is
checked against its closed range; the first violation returns `False`. -/
def validate_data (P_ac V_dc I_dc G : Rat) : Bool :=
  if P_ac < 0 ∨ P_ac > 10000 then false
  else if V_dc < 0 ∨ V_dc > 100 then false
  else if I_dc < 0 ∨ I_dc > 50 then false
  else if G < 0 ∨ G > 1500 then false
  else true

/-- `ProtocolTranslator.translate_and_send` (lines 58-132), one cycle.  The
IEC 61850 client's connection flag and the outcome of each of the three
`write_float` calls are that cycle's environment (`writeOk i` is the result
of the i-th write); `regs` is the 5-register snapshot read from the
datablock.  The returned list holds the values handed to `write_float`, in
call order — an aborted cycle returns the empty list. -/
def translate_and_send (s : TranslatorState) (connected : Bool)
    (regs : List Nat) (writeOk : Nat → Bool) (now : Nat) :
    TranslatorState × List Rat :=
  if connected = false then (s, [])
  else
    let P_ac : Rat := (reg regs 0 : Rat)
    let V_dc : Rat := (reg regs 1 : Rat) / 10
    let I_dc : Rat := (reg regs 2 : Rat) / 100
    let G : Rat := (reg regs 3 : Rat)
    if validate_data P_ac V_dc I_dc G = false then
      ({ s with total_errors := s.total_errors + 1 }, [])
    else
      let success := writeOk 0 && writeOk 1 && writeOk 2
      if success then
        ({ s with
          total_updates := s.total_updates + 1
          last_update := some now }, [P_ac, V_dc, I_dc])
      else
        ({ s with total_errors := s.total_errors + 1 }, [P_ac, V_dc, I_dc])

/-- Helper: `_validate_data` succeeds exactly when all four fields sit in
their closed ranges. -/
theorem validate_data_eq_true_iff (P_ac V_dc I_dc G : Rat) :
    validate_data P_ac V_dc I_dc G = true ↔
      (0 ≤ P_ac ∧ P_ac ≤ 10000) ∧ (0 ≤ V_dc ∧ V_dc ≤ 100) ∧
        (0 ≤ I_dc ∧ I_dc ≤ 50) ∧ (0 ≤ G ∧ G ≤ 1500) := by
  unfold validate_data
  split_ifs with h1 h2 h3 h4
  · simp only [Bool.false_eq_true, false_iff]
    rintro ⟨⟨a, b⟩, -, -, -⟩
    rcases h1 with h | h <;> linarith
  · simp only [Bool.false_eq_true, false_iff]
    rintro ⟨-, ⟨a, b⟩, -, -⟩
    rcases h2 with h | h <;> linarith
  · simp only [Bool.false_eq_true, false_iff]
    rintro ⟨-, -, ⟨a, b⟩, -⟩
    rcases h3 with h | h <;> linarith
  · simp only [Bool.false_eq_true, false_iff]
    rintro ⟨-, -, -, ⟨a, b⟩⟩
    rcases h4 with h | h <;> linarith
  · simp only [true_iff]
    push_neg at h1 h2 h3 h4
    exact ⟨⟨h1.1, h1.2⟩, ⟨h2.1, h2.2⟩, ⟨h3.1, h3.2⟩, ⟨h4.1, h4.2⟩⟩

/-- Claim C3: a connected translation cycle whose snapshot decodes to any
field outside its closed validation range issues zero downstream writes,
increments `total_errors` by exactly one and leaves `total_updates` and
`last_update` unchanged; when all four fields are in range, validation does
not abort the cycle — all three downstream writes are issued. -/
theorem invalid_cycle_aborts (s : TranslatorState) (regs : List Nat)
    (writeOk : Nat → Bool) (now : Nat) :
    (¬ ((0 ≤ (reg regs 0 : Rat) ∧ (reg regs 0 : Rat) ≤ 10000) ∧
        (0 ≤ (reg regs 1 : Rat) / 10 ∧ (reg regs 1 : Rat) / 10 ≤ 100) ∧
        (0 ≤ (reg regs 2 : Rat) / 100 ∧ (reg regs 2 : Rat) / 100 ≤ 50) ∧
        (0 ≤ (reg regs 3 : Rat) ∧ (reg regs 3 : Rat) ≤ 1500)) →
      translate_and_send s true regs writeOk now =
        ({ s with total_errors := s.total_errors + 1 }, [])) ∧
    (((0 ≤ (reg regs 0 : Rat) ∧ (reg regs 0 : Rat) ≤ 10000) ∧
        (0 ≤ (reg regs 1 : Rat) / 10 ∧ (reg regs 1 : Rat) / 10 ≤ 100) ∧
        (0 ≤ (reg regs 2 : Rat) / 100 ∧ (reg regs 2 : Rat) / 100 ≤ 50) ∧
        (0 ≤ (reg regs 3 : Rat) ∧ (reg regs 3 : Rat) ≤ 1500)) →
      (translate_and_send s true regs writeOk now).2 =
        [(reg regs 0 : Rat), (reg regs 1 : Rat) / 10, (reg regs 2 : Rat) / 100]) := by
  constructor
  · intro hbad
    have hv : validate_data (reg regs 0 : Rat) ((reg regs 1 : Rat) / 10)
        ((reg regs 2 : Rat) / 100) (reg regs 3 : Rat) = false := by
      rcases hb : validate_data (reg regs 0 : Rat) ((reg regs 1 : Rat) / 10)
          ((reg regs 2 : Rat) / 100) (reg regs 3 : Rat) with _ | _
      · rfl
      · exact absurd ((validate_data_eq_true_iff _ _ _ _).mp hb) hbad
    unfold translate_and_send
    rw [if_neg (by simp), if_pos hv]
  · intro hgood
    have hv : validate_data (reg regs 0 : Rat) ((reg regs 1 : Rat) / 10)
        ((reg regs 2 : Rat) / 100) (reg regs 3 : Rat) = true :=
      (validate_data_eq_true_iff _ _ _ _).mpr hgood
    unfold translate_and_send
    rw [if_neg (by simp), if_neg (by simp [hv])]
    rcases hw : writeOk 0 && writeOk 1 && writeOk 2 with _ | _ <;> simp [hw]

/-- Witness for C3: with snapshot `[20000, 0, 0, 0, 0]` (P_ac = 20000 W, out
of range) the cycle aborts with one error and no writes; with the spec's §8
snapshot `[800, 205, 120, 600, 999]` the three writes are issued. -/
theorem invalid_cycle_aborts_witness :
    translate_and_send ⟨0, 0, none⟩ true [20000, 0, 0, 0, 0] (fun _ => true) 5 =
        ({ total_updates := 0, total_errors := 1, last_update := none }, []) ∧
      (translate_and_send ⟨0, 0, none⟩ true [800, 205, 120, 600, 999]
          (fun _ => true) 5).2 = [(800 : Rat), 205 / 10, 120 / 100] := by
  have h1 := (invalid_cycle_aborts ⟨0, 0, none⟩ [20000, 0, 0, 0, 0]
    (fun _ => true) 5).1 (by norm_num [reg])
  have h2 := (invalid_cycle_aborts ⟨0, 0, none⟩ [800, 205, 120, 600, 999]
    (fun _ => true) 5).2 (by norm_num [reg])
  refine ⟨?_, ?_⟩
  · exact h1
  · rw [h2]
    norm_num [reg]

/-! ## Fixed-point V_dc encoding (`generate_esp32_data.py`) -/

/-- Python's built-in `round`: round half to even (banker's rounding).  For a
non-tie the nearest integer is Mathlib's `round`; at a tie the even of the
two neighbouring integers is chosen. -/
def pyRound (q : Rat) : Int :=
  if q - ⌊q⌋ = 1 / 2 then (if 2 ∣ ⌊q⌋ then ⌊q⌋ else ⌊q⌋ + 1) else round q

/-- V_dc register encoding, `generate_esp32_data.py` line 208:
`u16(round(row['V_dc'] * 10))`. -/
def encode_V_dc (v : Rat) : Int := u16 (pyRound (v * 10))

/-- V_dc register decoding, `smart_meter_server.py` line 125:
`regs[2] / 10.0`. -/
def decode_V_dc (r : Int) : Rat := (r : Rat) / 10

/-- Helper: banker's rounding lands within one half of its argument. -/
theorem pyRound_abs_sub (q : Rat) : |(pyRound q : Rat) - q| ≤ 1 / 2 := by
  unfold pyRound
  split_ifs with htie heven
  · have h : ((⌊q⌋ : Rat)) - q = -(1 / 2) := by
      rw [← htie]; ring
    rw [h, abs_neg, abs_of_pos (by norm_num : (0 : Rat) < 1 / 2)]
  · have h : ((⌊q⌋ + 1 : Int) : Rat) - q = 1 / 2 := by
      push_cast
      linarith
    rw [h, abs_of_pos (by norm_num : (0 : Rat) < 1 / 2)]
  · rw [abs_sub_comm]
    exact abs_sub_round q

/-- Claim C9: for every V_dc in the rational interval [0, 6553.5], encoding
as the clamped 16-bit register `u16(round(v * 10))` and decoding as
`register / 10` recovers the value to within 0.1. -/
theorem encode_decode_V_dc (v : Rat) (h0 : 0 ≤ v) (h1 : v ≤ 13107 / 2) :
    |decode_V_dc (encode_V_dc v) - v| ≤ 1 / 10 := by
  have hq0 : (0 : Rat) ≤ v * 10 := by linarith
  have hq1 : v * 10 ≤ 65535 := by linarith
  have habs := pyRound_abs_sub (v * 10)
  have hboth := abs_le.mp habs
  have hp0 : 0 ≤ pyRound (v * 10) := by
    have hgt : (-1 : Rat) < (pyRound (v * 10) : Rat) := by linarith [hboth.1]
    have : (-1 : Int) < pyRound (v * 10) := by exact_mod_cast hgt
    omega
  have hp1 : pyRound (v * 10) ≤ 65535 := by
    have hlt : ((pyRound (v * 10) : Rat)) < 65536 := by linarith [hboth.2]
    have : pyRound (v * 10) < 65536 := by exact_mod_cast hlt
    omega
  have hu : u16 (pyRound (v * 10)) = pyRound (v * 10) := by
    unfold u16
    rw [min_eq_right hp1, max_eq_right hp0]
  unfold decode_V_dc encode_V_dc
  rw [hu]
  have hsplit : ((pyRound (v * 10) : Rat)) / 10 - v =
      ((pyRound (v * 10) : Rat) - v * 10) / 10 := by ring
  rw [hsplit, abs_div]
  rw [show |(10 : Rat)| = 10 by norm_num]
  linarith [habs]

/-- Witness for C9 at v = 20.5 (the spec's §8 gateway V_dc value): the
encode/decode round trip is exact, well within 0.1. -/
theorem encode_decode_V_dc_witness :
    (0 : Rat) ≤ 41 / 2 ∧ (41 / 2 : Rat) ≤ 13107 / 2 ∧
      |decode_V_dc (encode_V_dc (41 / 2)) - 41 / 2| ≤ 1 / 10 :=
  ⟨by norm_num, by norm_num,
    encode_decode_V_dc (41 / 2) (by norm_num) (by norm_num)⟩

/-! ## IEC61850Client.write_float (`system_v2/rpi2/iec61850_client.py`) -/

/-- How one `write_float` attempt against the library can end: a clean write,
an error code unequal to `IED_ERROR_OK`, or a raised exception. -/
inductive LibCallOutcome where
  | ok : LibCallOutcome
  | errorCode : LibCallOutcome
  | raises : LibCallOutcome
deriving Repr, DecidableEq

/-- The body of the `try` block of `write_float` (lines 160-195): a raised
exception escapes as `Except.error`, otherwise the error-code check maps a
bad code to `False` and a clean write to `True`. -/
def write_float_attempt (outcome : LibCallOutcome) : Except String Bool :=
  match outcome with
  | .ok => .ok true
  | .errorCode => .ok false
  | .raises => .error "exception"

/-- `IEC61850Client.write_float` (lines 145-198), with the downstream library
call abstracted by its outcome.  Returns the boolean result together with the
number of downstream write attempts issued.  When `connected` is false the
guard at lines 156-158 returns `False` before any attempt; the `except`
handler at lines 196-198 converts a raised exception into `False`. -/
def write_float (connected : Bool) (outcome : LibCallOutcome) : Bool × Nat :=
  if connected = false then (false, 0)
  else
    match write_float_attempt outcome with
    | .ok b => (b, 1)
    | .error _ => (false, 1)

/-- Claim C10: `write_float` always returns a boolean — the `except` handler
maps even a raised library exception to `False` instead of propagating it —
and whenever the client is not connected it returns `False` without issuing
any downstream write and without touching any other state. -/
theorem write_float_never_raises :
    (∀ outcome : LibCallOutcome, write_float false outcome = (false, 0)) ∧
      write_float true .raises = (false, 1) ∧
      write_float true .errorCode = (false, 1) ∧
      write_float true .ok = (true, 1) := by
  exact ⟨fun _ => rfl, rfl, rfl, rfl⟩

end ModbusRpiOpta
